import Mathlib

/-!
Admin Authentication and Lockout Guard, a shallow embedding.

Shallow embedding of the admin authentication flow of the portfolio
backend: the `Admin` mongoose model (`src/unnamed/part_001`), the admin
routes (`src/unnamed/part_003`, the part after the separator containing
`routes/admin`), and the `authorize` middleware
(`src/backend/middleware/auth.js`).

Modelling conventions:
* Timestamps are `Nat` milliseconds; `Date.now()` is passed explicitly
  as a `now : Nat` argument.
* The external bcrypt facility is modelled by the injective tagging
  function `bcryptHash`; `bcrypt.compare(candidate, stored)` holds iff
  `stored = bcryptHash candidate`.  The external sha256 digest used for
  reset tokens is modelled by the tagging function `sha256hex`.
* The persistent store is a `List Admin`; `findOne`/`findById` are
  `List.find?`, `updateOne`/`save` persistence is `updateById`,
  `remove()` is `removeById`.
* Mongoose `$unset` of `loginAttempts` (a `Number` path with schema
  default `0`) is observed as `0` on every subsequent read, and `$unset`
  of the optional `lockUntil` as `none`; the embedding stores those
  observed values directly.
* JWT signing is external; `generateAuthToken` returns the payload
  `{ id, role }` that `jwt.sign` embeds (part_001 lines 102-108).
-/

/-- Roles of the `role` enum of `AdminSchema` (part_001 lines 27-31). -/
inductive Role where
  | admin
  | superAdmin
deriving DecidableEq, Repr

/-- Model of the external bcrypt hashing facility: an injective tag. -/
def bcryptHash (s : String) : String := "bc$" ++ s

/-- Model of `crypto.createHash('sha256').update(t).digest('hex')`. -/
def sha256hex (s : String) : String := "sha256$" ++ s

/-- The fields of `AdminSchema` (part_001 lines 5-69) that the admin
authentication flow reads or writes.  `id` stands for the opaque
`_id`.  `password` holds the stored (hashed) credential. -/
structure Admin where
  id : Nat
  name : String
  email : String
  password : String
  role : Role
  isActive : Bool
  lastLogin : Option Nat
  loginAttempts : Nat
  lockUntil : Option Nat
  passwordChangedAt : Option Nat
  passwordResetToken : Option String
  passwordResetExpires : Option Nat
  updatedAt : Nat
deriving DecidableEq, Repr

/-- Embedding of `AdminSchema.methods.comparePassword` (part_001 lines 97-99):
`bcrypt.compare(candidatePassword, this.password)`. -/
def comparePassword (candidatePassword : String) (stored : String) : Bool :=
  stored == bcryptHash candidatePassword

/-- Payload of the token issued by
`AdminSchema.methods.generateAuthToken` (part_001 lines 102-108):
`jwt.sign({ id: this._id, role: this.role }, ...)`. -/
structure AuthToken where
  id : Nat
  role : Role
deriving DecidableEq, Repr

/-- Embedding of `AdminSchema.methods.generateAuthToken` (part_001 lines 102-108). -/
def generateAuthToken (a : Admin) : AuthToken :=
  { id := a.id, role := a.role }

/-- Embedding of `AdminSchema.methods.isLocked` (part_001 lines 111-113):
`!!(this.lockUntil && this.lockUntil > Date.now())`. -/
def isLocked (a : Admin) (now : Nat) : Bool :=
  match a.lockUntil with
  | some t => now < t
  | none => false

/-- The guard `this.lockUntil && this.lockUntil < Date.now()` of
`incLoginAttempts` (part_001 line 118). -/
def lockExpired (a : Admin) (now : Nat) : Bool :=
  match a.lockUntil with
  | some t => t < now
  | none => false

/-- Embedding of `AdminSchema.methods.incLoginAttempts` (part_001 lines 116-133),
read sequentially on a single document (see `lockExpired`): an expired
previous lock restarts the counter at 1 and unsets the lock; otherwise
`$inc: { loginAttempts: 1 }`, and when
`this.loginAttempts + 1 >= 5 && !this.isLocked()` additionally
`$set: { lockUntil: Date.now() + 2*60*60*1000 }`. -/
def incLoginAttempts (a : Admin) (now : Nat) : Admin :=
  if lockExpired a now then
    { a with lockUntil := none, loginAttempts := 1 }
  else
    let a' := { a with loginAttempts := a.loginAttempts + 1 }
    if a.loginAttempts + 1 ≥ 5 && !(isLocked a now) then
      { a' with lockUntil := some (now + 2 * 60 * 60 * 1000) }
    else
      a'

/-- Embedding of `AdminSchema.methods.resetLoginAttempts` (part_001 lines 136-140):
`updateOne({ $unset: { loginAttempts: 1, lockUntil: 1 } })`; per the
conventions above the unset counter is observed as the schema default
`0` and the unset lock as `none`. -/
def resetLoginAttempts (a : Admin) : Admin :=
  { a with loginAttempts := 0, lockUntil := none }

/-- First `AdminSchema.pre('save')` hook (part_001 lines 75-84).  When
the password path is not modified the code calls `next()` but does NOT
return, so execution falls through and the hashing below runs on every
save: `this.password = await bcrypt.hash(this.password, salt);
this.updatedAt = Date.now()`.  The embedding therefore applies the hash
unconditionally, exactly as the function body reads. -/
def hashPasswordHook (now : Nat) (a : Admin) : Admin :=
  { a with password := bcryptHash a.password, updatedAt := now }

/-- Second `AdminSchema.pre('save')` hook (part_001 lines 87-94): when
the caller modified the password on an existing document,
`this.passwordChangedAt = Date.now() - 1000`.  `modifiedPassword` is
the caller-level modified state of the password path at the time the
save was issued; `isNew` is the mongoose document `isNew` flag. -/
def passwordChangedAtHook (modifiedPassword isNew : Bool) (now : Nat)
    (a : Admin) : Admin :=
  if !modifiedPassword || isNew then a
  else { a with passwordChangedAt := some (now - 1000) }

/-- Embedding of `document.save()` on an `Admin`: runs the two registered pre-save
hooks in registration order and persists the result. -/
def saveAdmin (modifiedPassword isNew : Bool) (now : Nat) (a : Admin) : Admin :=
  passwordChangedAtHook modifiedPassword isNew now (hashPasswordHook now a)

/-- Embedding of `AdminSchema.methods.updateLastLogin` (part_001 lines 143-146):
`this.lastLogin = Date.now(); return this.save()`.  The save does not
modify the password path at caller level and acts on an existing
document. -/
def updateLastLogin (a : Admin) (now : Nat) : Admin :=
  saveAdmin false false now { a with lastLogin := some now }

/-- Embedding of `Admin.findOne` by email over the store. -/
def findByEmail (db : List Admin) (email : String) : Option Admin :=
  db.find? (fun a => a.email == email)

/-- Embedding of `Admin.findById(id)` over the store. -/
def findById (db : List Admin) (id : Nat) : Option Admin :=
  db.find? (fun a => a.id == id)

/-- Persisting an update of the account with identifier `id`. -/
def updateById (db : List Admin) (id : Nat) (a' : Admin) : List Admin :=
  db.map (fun a => if a.id == id then a' else a)

/-- Embedding of `admin.remove()`: the account with identifier `id` is deleted. -/
def removeById (db : List Admin) (id : Nat) : List Admin :=
  db.filter (fun a => a.id != id)

/-- Outcome of `POST /api/admin/login` (part_003, admin router lines
around 420-503).  Each constructor corresponds to one response. -/
inductive LoginResult where
  | invalidCredentials
  | accountLocked
  | accountInactive
  | success (token : AuthToken)
deriving DecidableEq, Repr

/-- HTTP status the login handler attaches to each outcome:
401 / 423 / 401 / 200. -/
def loginStatus : LoginResult → Nat
  | .invalidCredentials => 401
  | .accountLocked => 423
  | .accountInactive => 401
  | .success _ => 200

/-- Error message string of the login handler's failure responses. -/
def loginErrorMessage : LoginResult → Option String
  | .invalidCredentials => some "Invalid credentials"
  | .accountLocked =>
      some "Account is locked due to too many failed login attempts. Please try again later."
  | .accountInactive => some "Account is deactivated"
  | .success _ => none

/-- Embedding of the `POST /api/admin/login` handler (part_003, admin router): look up by
email (absent → invalid credentials), then `isLocked()` → 423, then
`!isActive` → 401, then `comparePassword`; on mismatch
`incLoginAttempts()` and 401; on match `resetLoginAttempts()` then
`updateLastLogin()` (a save), and respond with `generateAuthToken()`.
Returns the response outcome and the store after the request. -/
def adminLogin (db : List Admin) (email password : String) (now : Nat) :
    LoginResult × List Admin :=
  match findByEmail db email with
  | none => (.invalidCredentials, db)
  | some admin =>
    if isLocked admin now then
      (.accountLocked, db)
    else if !admin.isActive then
      (.accountInactive, db)
    else if !(comparePassword password admin.password) then
      (.invalidCredentials, updateById db admin.id (incLoginAttempts admin now))
    else
      (.success (generateAuthToken admin),
        updateById db admin.id (updateLastLogin (resetLoginAttempts admin) now))

/-- Outcome of `POST /api/admin/forgot-password` (part_003, admin
router): 404 when no account has the email, 500 when the reset email
could not be sent (after the rollback), 200 otherwise. -/
inductive ForgotResult where
  | notFound
  | emailFailed
  | sent
deriving DecidableEq, Repr

/-- Embedding of the `POST /api/admin/forgot-password` handler (part_003, admin router).
`rawToken` stands for the `crypto.randomBytes(32).toString('hex')`
value produced by the external randomness source, and `emailOk` for
whether `sendPasswordResetEmail` succeeds.  On lookup success the
handler stores the sha256 digest of the raw token and an expiry of
`Date.now() + 60*60*1000`, saves (the save hooks run; the password path
is not modified at caller level), then dispatches the email; on
dispatch failure it sets both reset fields to `undefined`, saves again
and responds 500. -/
def requestReset (db : List Admin) (email rawToken : String) (now : Nat)
    (emailOk : Bool) : ForgotResult × List Admin :=
  match findByEmail db email with
  | none => (.notFound, db)
  | some admin =>
    let admin1 := saveAdmin false false now
      { admin with
        passwordResetToken := some (sha256hex rawToken),
        passwordResetExpires := some (now + 60 * 60 * 1000) }
    if emailOk then
      (.sent, updateById db admin.id admin1)
    else
      let admin2 := saveAdmin false false now
        { admin1 with passwordResetToken := none, passwordResetExpires := none }
      (.emailFailed, updateById db admin.id admin2)

/-- Outcome of `PUT /api/admin/reset-password/:token` (part_003, admin
router): 400 `Invalid or expired reset token`, or 200 success. -/
inductive ResetResult where
  | invalidOrExpired
  | success
deriving DecidableEq, Repr

/-- The query predicate of `PUT /api/admin/reset-password/:token`:
`passwordResetToken: digest, passwordResetExpires: { $gt: Date.now() }`. -/
def resetTokenMatches (digest : String) (now : Nat) (a : Admin) : Bool :=
  a.passwordResetToken == some digest &&
    (match a.passwordResetExpires with | some e => now < e | none => false)

/-- Embedding of the `PUT /api/admin/reset-password/:token` handler (part_003, admin
router): digest the raw token, find an account whose stored digest
matches and whose expiry is still in the future; if none → 400;
otherwise set the new password, clear both reset fields and save (the
save hooks run; the password path is modified, the document is not
new). -/
def completeReset (db : List Admin) (rawToken newPassword : String)
    (now : Nat) : ResetResult × List Admin :=
  match db.find? (resetTokenMatches (sha256hex rawToken) now) with
  | none => (.invalidOrExpired, db)
  | some admin =>
    let admin1 := saveAdmin true false now
      { admin with
        password := newPassword,
        passwordResetToken := none,
        passwordResetExpires := none }
    (.success, updateById db admin.id admin1)

/-- Outcome of `DELETE /api/admin/:id` (part_003, admin router) behind
`protect` and `authorize('super-admin')`
(src/backend/middleware/auth.js lines 46-64): 403 from `authorize` when
the caller's role is not in the allowed set, 404 when the target does
not exist, 400 `Cannot delete your own account`, or 200 deleted. -/
inductive DeleteResult where
  | forbidden
  | notFound
  | selfDeleteRefused
  | deleted
deriving DecidableEq, Repr

/-- Embedding of the `DELETE /api/admin/:id` route (part_003, admin router), composed
with the `authorize('super-admin')` middleware: role gate, then
`findById`; absent → 404; `admin._id.toString() === req.admin.id` →
400 without deleting; otherwise `admin.remove()`. -/
def deleteAdminRoute (db : List Admin) (caller : Admin) (targetId : Nat) :
    DeleteResult × List Admin :=
  if !(caller.role == Role.superAdmin) then
    (.forbidden, db)
  else
    match findById db targetId with
    | none => (.notFound, db)
    | some admin =>
      if admin.id == caller.id then
        (.selfDeleteRefused, db)
      else
        (.deleted, removeById db admin.id)

/-- The `loginAttempts`/`lockUntil` pair of one stored account, the
fields involved in the concurrent read-modify-write of
`incLoginAttempts` (part_001 lines 116-133). -/
structure AcctState where
  loginAttempts : Nat
  lockUntil : Option Nat
deriving DecidableEq, Repr

/-- Embedding of `isLocked` (part_001 lines 111-113) on the projected pair. -/
def isLockedS (s : AcctState) (now : Nat) : Bool :=
  match s.lockUntil with
  | some t => now < t
  | none => false

/-- The lock-expiry guard of `incLoginAttempts` on the projected pair. -/
def lockExpiredS (s : AcctState) (now : Nat) : Bool :=
  match s.lockUntil with
  | some t => t < now
  | none => false

/-- The store-side effect of one `incLoginAttempts` `updateOne` call
(part_001 lines 116-133) under concurrency: the branch taken, the
`$set` values and the lock-threshold test `this.loginAttempts + 1 >= 5
&& !this.isLocked()` are all computed from `snap`, the document
snapshot the request fetched, while the server-side `$inc` adds 1 to
the CURRENT stored value `db.loginAttempts`. -/
def applyIncUpdate (snap : AcctState) (now : Nat) (db : AcctState) : AcctState :=
  if lockExpiredS snap now then
    { db with lockUntil := none, loginAttempts := 1 }
  else
    let db' := { db with loginAttempts := db.loginAttempts + 1 }
    if snap.loginAttempts + 1 ≥ 5 && !(isLockedS snap now) then
      { db' with lockUntil := some (now + 2 * 60 * 60 * 1000) }
    else
      db'

/-- Store state after `n` simultaneous wrong-password requests: all fetched the same
snapshot `snap` before any update was applied, then their `updateOne`
calls hit the store one after the other. -/
def runSimultaneous (snap : AcctState) (now : Nat) : Nat → AcctState → AcctState
  | 0, db => db
  | n + 1, db => runSimultaneous snap now n (applyIncUpdate snap now db)

/-- Demonstration account with the stored hash of `secretpw`, used for
concrete scenario conjuncts and witnesses. -/
def demoAdmin : Admin :=
  { id := 1, name := "Admin", email := "admin@example.com",
    password := bcryptHash "secretpw", role := .superAdmin, isActive := true,
    lastLogin := none, loginAttempts := 0, lockUntil := none,
    passwordChangedAt := none, passwordResetToken := none,
    passwordResetExpires := none, updatedAt := 0 }

/-- Store state after `n` consecutive wrong-password login requests at time 1000. -/
def failedLogins : Nat → List Admin → List Admin
  | 0, db => db
  | n + 1, db => failedLogins n (adminLogin db "admin@example.com" "wrongpass" 1000).2

/-- C1: on a failed attempt against a not-currently-locked account, an
expired previous lock is cleared and the counter restarts at 1;
otherwise the counter is incremented by 1, and when the post-increment
counter reaches the threshold 5 (the account not being already locked)
the lock is set to now + 2 hours, while below the threshold the lock
field is untouched. -/
theorem incLoginAttempts_spec (a : Admin) (now : Nat)
    (hnl : isLocked a now = false) :
    ((∃ t, a.lockUntil = some t ∧ t < now) →
        incLoginAttempts a now =
          { a with lockUntil := none, loginAttempts := 1 }) ∧
    (lockExpired a now = false →
        (incLoginAttempts a now).loginAttempts = a.loginAttempts + 1 ∧
        (5 ≤ a.loginAttempts + 1 →
            (incLoginAttempts a now).lockUntil =
              some (now + 2 * 60 * 60 * 1000)) ∧
        (a.loginAttempts + 1 < 5 →
            (incLoginAttempts a now).lockUntil = a.lockUntil)) := by
  constructor
  · rintro ⟨t, ht, hlt⟩
    have he : lockExpired a now = true := by simp [lockExpired, ht, hlt]
    simp [incLoginAttempts, he]
  · intro he
    by_cases h5 : 5 ≤ a.loginAttempts + 1
    · refine ⟨?_, fun _ => ?_, fun hlt => absurd h5 (by omega)⟩ <;>
        simp [incLoginAttempts, he, hnl, h5]
    · refine ⟨?_, fun h => absurd h h5, fun _ => ?_⟩ <;>
        simp [incLoginAttempts, he, hnl, h5]

/-- Witness for `incLoginAttempts_spec`: the 5th failure on an unlocked
account increments the counter to 5 and sets the 2-hour lock. -/
theorem incLoginAttempts_spec_witness :
    (incLoginAttempts { demoAdmin with loginAttempts := 4 } 1000).loginAttempts
        = ({ demoAdmin with loginAttempts := 4 } : Admin).loginAttempts + 1 ∧
    (incLoginAttempts { demoAdmin with loginAttempts := 4 } 1000).lockUntil
        = some (1000 + 2 * 60 * 60 * 1000) :=
  ⟨((incLoginAttempts_spec { demoAdmin with loginAttempts := 4 } 1000
      (by decide)).2 (by decide)).1,
    ((incLoginAttempts_spec { demoAdmin with loginAttempts := 4 } 1000
      (by decide)).2 (by decide)).2.1 (by decide)⟩

/-- C2: a login attempt against an account whose `lockUntil` is set and
strictly in the future returns `accountLocked` and leaves the store
untouched, whatever the submitted password; and concretely, after 5
consecutive failed attempts the 6th attempt with the correct password
returns `accountLocked`. -/
theorem adminLogin_locked_noSideEffect (db : List Admin)
    (email password : String) (now : Nat) (a : Admin) (t : Nat)
    (hfind : findByEmail db email = some a)
    (hl : a.lockUntil = some t) (hfut : now < t) :
    adminLogin db email password now = (.accountLocked, db) ∧
    (adminLogin (failedLogins 5 [demoAdmin]) "admin@example.com" "secretpw"
        2000).1 = .accountLocked := by
  have hlock : isLocked a now = true := by simp [isLocked, hl, hfut]
  exact ⟨by simp [adminLogin, hfind, hlock], by decide⟩

/-- Witness for `adminLogin_locked_noSideEffect` at a concrete locked
account. -/
theorem adminLogin_locked_noSideEffect_witness :
    findByEmail [{ demoAdmin with lockUntil := some 9000 }] "admin@example.com"
        = some { demoAdmin with lockUntil := some 9000 } ∧
    adminLogin [{ demoAdmin with lockUntil := some 9000 }] "admin@example.com"
        "secretpw" 2000 =
      (.accountLocked, [{ demoAdmin with lockUntil := some 9000 }]) :=
  ⟨by decide,
    (adminLogin_locked_noSideEffect [{ demoAdmin with lockUntil := some 9000 }]
      "admin@example.com" "secretpw" 2000 { demoAdmin with lockUntil := some 9000 }
      9000 (by decide) (by decide) (by decide)).1⟩

/-- C3: a successful authentication (existing, active, unlocked account
and matching password) resets `loginAttempts` to 0, clears any
`lockUntil`, records `lastLogin = now`, and returns `success` carrying
the token payload embedding the account identifier and role. -/
theorem adminLogin_success_spec (db : List Admin) (email password : String)
    (now : Nat) (a : Admin)
    (hfind : findByEmail db email = some a)
    (hnl : isLocked a now = false)
    (hact : a.isActive = true)
    (hpw : comparePassword password a.password = true) :
    adminLogin db email password now =
      (.success { id := a.id, role := a.role },
        updateById db a.id (updateLastLogin (resetLoginAttempts a) now)) ∧
    (updateLastLogin (resetLoginAttempts a) now).loginAttempts = 0 ∧
    (updateLastLogin (resetLoginAttempts a) now).lockUntil = none ∧
    (updateLastLogin (resetLoginAttempts a) now).lastLogin = some now := by
  refine ⟨?_, ?_, ?_, ?_⟩ <;>
    simp [adminLogin, hfind, hnl, hact, hpw, generateAuthToken, updateLastLogin,
      saveAdmin, hashPasswordHook, passwordChangedAtHook, resetLoginAttempts]

/-- Witness for `adminLogin_success_spec`: a concrete login with the
correct password. -/
theorem adminLogin_success_spec_witness :
    adminLogin [demoAdmin] "admin@example.com" "secretpw" 4000 =
      (.success { id := demoAdmin.id, role := demoAdmin.role },
        updateById [demoAdmin] demoAdmin.id
          (updateLastLogin (resetLoginAttempts demoAdmin) 4000)) ∧
    (updateLastLogin (resetLoginAttempts demoAdmin) 4000).loginAttempts = 0 ∧
    (updateLastLogin (resetLoginAttempts demoAdmin) 4000).lockUntil = none ∧
    (updateLastLogin (resetLoginAttempts demoAdmin) 4000).lastLogin = some 4000 :=
  adminLogin_success_spec [demoAdmin] "admin@example.com" "secretpw" 4000
    demoAdmin (by decide) (by decide) (by decide) (by decide)

/-- C4 (code bug): `AdminSchema.pre('save')` misses a `return` after
`next()` in the not-modified branch, so a save that does not modify the
password — here `updateLastLogin`, which only sets `lastLogin` — still
re-hashes the already-hashed stored password instead of leaving it
unchanged. -/
theorem updateLastLogin_rehashes_password :
    demoAdmin.password = bcryptHash "secretpw" ∧
    (updateLastLogin demoAdmin 5000).password =
      bcryptHash (bcryptHash "secretpw") ∧
    (updateLastLogin demoAdmin 5000).password ≠ demoAdmin.password := by
  refine ⟨rfl, rfl, ?_⟩
  decide

/-- C7: the unknown-email branch and the wrong-password branch of the
login handler return the very same error outcome — `invalidCredentials`
with status 401 and identical message — so the two are
indistinguishable to the caller. -/
theorem login_branches_indistinguishable (db : List Admin)
    (e1 p1 e2 p2 : String) (now : Nat) (a : Admin)
    (h1 : findByEmail db e1 = none)
    (h2 : findByEmail db e2 = some a)
    (hnl : isLocked a now = false)
    (hact : a.isActive = true)
    (hpw : comparePassword p2 a.password = false) :
    (adminLogin db e1 p1 now).1 = .invalidCredentials ∧
    (adminLogin db e2 p2 now).1 = .invalidCredentials ∧
    (adminLogin db e1 p1 now).1 = (adminLogin db e2 p2 now).1 ∧
    loginStatus (adminLogin db e1 p1 now).1 = 401 ∧
    loginErrorMessage (adminLogin db e1 p1 now).1 =
      loginErrorMessage (adminLogin db e2 p2 now).1 := by
  have r1 : (adminLogin db e1 p1 now).1 = .invalidCredentials := by
    simp [adminLogin, h1]
  have r2 : (adminLogin db e2 p2 now).1 = .invalidCredentials := by
    simp [adminLogin, h2, hnl, hact, hpw]
  exact ⟨r1, r2, r1.trans r2.symm, by rw [r1]; rfl, by rw [r1, r2]⟩

/-- Witness for `login_branches_indistinguishable`: store with only the
demo account, an unknown email versus a wrong password. -/
theorem login_branches_indistinguishable_witness :
    (adminLogin [demoAdmin] "other@example.com" "whatever1" 100).1 =
        .invalidCredentials ∧
    (adminLogin [demoAdmin] "admin@example.com" "wrongpass" 100).1 =
        .invalidCredentials ∧
    (adminLogin [demoAdmin] "other@example.com" "whatever1" 100).1 =
      (adminLogin [demoAdmin] "admin@example.com" "wrongpass" 100).1 ∧
    loginStatus (adminLogin [demoAdmin] "other@example.com" "whatever1" 100).1
        = 401 ∧
    loginErrorMessage
        (adminLogin [demoAdmin] "other@example.com" "whatever1" 100).1 =
      loginErrorMessage
        (adminLogin [demoAdmin] "admin@example.com" "wrongpass" 100).1 :=
  login_branches_indistinguishable [demoAdmin] "other@example.com" "whatever1"
    "admin@example.com" "wrongpass" 100 demoAdmin (by decide) (by decide)
    (by decide) (by decide) (by decide)

/-- C5: for any account, `requestReset` followed by `completeReset`
with the correct raw token within the 1-hour window succeeds, clears
the stored token digest and expiry, a second `completeReset` with the
same token is then rejected, and a `completeReset` whose expiry is not
in the future is rejected even though the digest matches. -/
theorem resetFlow_spec (a : Admin) (tok np np2 : String) (t0 t1 t2 : Nat)
    (h1 : t1 < t0 + 60 * 60 * 1000) :
    (requestReset [a] a.email tok t0 true).1 = .sent ∧
    (completeReset (requestReset [a] a.email tok t0 true).2 tok np t1).1 =
      .success ∧
    (∀ b ∈ (completeReset (requestReset [a] a.email tok t0 true).2 tok np t1).2,
        b.passwordResetToken = none ∧ b.passwordResetExpires = none) ∧
    (completeReset
        (completeReset (requestReset [a] a.email tok t0 true).2 tok np t1).2
        tok np2 t2).1 = .invalidOrExpired ∧
    (∀ t', t0 + 60 * 60 * 1000 ≤ t' →
        (completeReset (requestReset [a] a.email tok t0 true).2 tok np t').1 =
          .invalidOrExpired) := by
  refine ⟨?_, ?_, ?_, ?_, ?_⟩
  · simp [requestReset, findByEmail]
  · simp [requestReset, findByEmail, completeReset, resetTokenMatches, updateById,
      saveAdmin, hashPasswordHook, passwordChangedAtHook, h1]
  · simp [requestReset, findByEmail, completeReset, resetTokenMatches, updateById,
      saveAdmin, hashPasswordHook, passwordChangedAtHook, h1]
  · simp [requestReset, findByEmail, completeReset, resetTokenMatches, updateById,
      saveAdmin, hashPasswordHook, passwordChangedAtHook, h1]
  · intro t' ht'
    have hn : ¬ (t' < t0 + 60 * 60 * 1000) := by omega
    simp [requestReset, findByEmail, completeReset, resetTokenMatches, updateById,
      saveAdmin, hashPasswordHook, passwordChangedAtHook, hn]

/-- Witness for `resetFlow_spec`: a concrete request/complete/complete
run on the demo account. -/
theorem resetFlow_spec_witness :
    (requestReset [demoAdmin] demoAdmin.email "tk" 0 true).1 = .sent ∧
    (completeReset (requestReset [demoAdmin] demoAdmin.email "tk" 0 true).2
        "tk" "newpw1" 10).1 = .success ∧
    (completeReset
        (completeReset (requestReset [demoAdmin] demoAdmin.email "tk" 0 true).2
          "tk" "newpw1" 10).2 "tk" "newpw2" 20).1 = .invalidOrExpired :=
  ⟨(resetFlow_spec demoAdmin "tk" "newpw1" "newpw2" 0 10 20 (by decide)).1,
    (resetFlow_spec demoAdmin "tk" "newpw1" "newpw2" 0 10 20 (by decide)).2.1,
    (resetFlow_spec demoAdmin "tk" "newpw1" "newpw2" 0 10 20 (by decide)).2.2.2.1⟩

/-- C6: a `requestReset` on an existing account whose email dispatch
fails returns `emailFailed` and leaves no stale reset token: both
`passwordResetToken` and `passwordResetExpires` are cleared in the
store after the rollback. -/
theorem requestReset_rollback (a : Admin) (tok : String) (now : Nat) :
    (requestReset [a] a.email tok now false).1 = .emailFailed ∧
    ∀ b ∈ (requestReset [a] a.email tok now false).2,
      b.passwordResetToken = none ∧ b.passwordResetExpires = none := by
  refine ⟨?_, ?_⟩ <;>
    simp [requestReset, findByEmail, updateById, saveAdmin, hashPasswordHook,
      passwordChangedAtHook]

/-- C8: on the delete-admin route, a super-admin caller whose own
identifier equals the target's is refused (`Cannot delete your own
account`) with the store untouched, and a deletion succeeds only when
the target exists and is a distinct account, in which case exactly that
account is removed. -/
theorem deleteAdmin_selfProtect (db : List Admin) (caller : Admin)
    (targetId : Nat) (hrole : caller.role = Role.superAdmin) :
    (∀ a, findById db targetId = some a → a.id = caller.id →
        deleteAdminRoute db caller targetId = (.selfDeleteRefused, db)) ∧
    ((deleteAdminRoute db caller targetId).1 = .deleted →
        targetId ≠ caller.id ∧
        ∃ a, findById db targetId = some a ∧ a.id ≠ caller.id ∧
          (deleteAdminRoute db caller targetId).2 = removeById db targetId) := by
  have hb : (caller.role == Role.superAdmin) = true := by simp [hrole]
  constructor
  · intro a hfind hid
    simp [deleteAdminRoute, hb, hfind, hid]
  · intro hdel
    rcases hfa : findById db targetId with _ | a
    · simp [deleteAdminRoute, hb, hfa] at hdel
    · by_cases hid : (a.id == caller.id)
      · simp [deleteAdminRoute, hb, hfa, hid] at hdel
      · have haid : a.id = targetId := by
          have := List.find?_some (by simpa [findById] using hfa)
          simpa using this
        have hidt : ¬ (targetId = caller.id) := by
          rw [← haid]; simpa using hid
        have hlast : (deleteAdminRoute db caller targetId).2 =
            removeById db targetId := by
          simp [deleteAdminRoute, hb, hfa, hid, haid, hidt]
        exact ⟨hidt, ⟨a, rfl, by simpa using hid, hlast⟩⟩

/-- Witness for `deleteAdmin_selfProtect`: the demo super-admin
attempting to delete itself is refused and the store is unchanged. -/
theorem deleteAdmin_selfProtect_witness :
    deleteAdminRoute [demoAdmin] demoAdmin demoAdmin.id =
      (.selfDeleteRefused, [demoAdmin]) :=
  (deleteAdmin_selfProtect [demoAdmin] demoAdmin demoAdmin.id (by decide)).1
    demoAdmin (by decide) rfl

/-- Store state after `n` serialized wrong-password requests: each request fetches the
current stored state (its snapshot equals the store) before applying
its `updateOne`.  Contrast with `runSimultaneous`. -/
def runSequential (now : Nat) : Nat → AcctState → AcctState
  | 0, db => db
  | n + 1, db => runSequential now n (applyIncUpdate db now db)

/-- On a snapshot without a lock the `updateOne` of `incLoginAttempts`
increments the stored counter by exactly one, and leaves the stored
lock untouched when the snapshot's counter was below the threshold. -/
theorem applyIncUpdate_unlockedSnap (snap db : AcctState) (now : Nat)
    (hsnap : snap.lockUntil = none) :
    (applyIncUpdate snap now db).loginAttempts = db.loginAttempts + 1 ∧
    (snap.loginAttempts + 1 < 5 →
        (applyIncUpdate snap now db).lockUntil = db.lockUntil) := by
  have he : lockExpiredS snap now = false := by simp [lockExpiredS, hsnap]
  constructor
  · simp only [applyIncUpdate, he, Bool.false_eq_true, if_false]
    split <;> rfl
  · intro h5
    have : ¬ (5 ≤ snap.loginAttempts + 1) := by omega
    simp [applyIncUpdate, he, this]

/-- C9 counterexample: two wrong-password requests that both fetched
the same snapshot with counter 3 (no lock) each run their `updateOne`;
the `$inc` is applied twice, so the stored counter reaches the
threshold 5, yet neither request sets `lockUntil` — each computed the
threshold test from its stale snapshot (`3 + 1 < 5`) — whereas the same
two requests serialized do set the lock.  The increment-and-maybe-lock
step is therefore not atomic: the lock is delayed. -/
theorem simultaneous_lock_delayed :
    (runSimultaneous { loginAttempts := 3, lockUntil := none } 100 2
        { loginAttempts := 3, lockUntil := none }).loginAttempts = 5 ∧
    (runSimultaneous { loginAttempts := 3, lockUntil := none } 100 2
        { loginAttempts := 3, lockUntil := none }).lockUntil = none ∧
    (runSequential 100 2
        { loginAttempts := 3, lockUntil := none }).lockUntil =
      some (100 + 2 * 60 * 60 * 1000) := by
  decide

/-- C9 amended: the `$inc` update itself loses no updates — `n`
simultaneous wrong-password requests that all fetched an unlocked
snapshot leave the counter incremented by exactly `n` — but the
maybe-lock decision is computed from each request's stale snapshot, so
when the snapshot's counter was below the threshold none of the `n`
requests sets the lock, however large `n` is (the lock is delayed). -/
theorem simultaneous_increments_exact (snap : AcctState) (now n : Nat)
    (db : AcctState) (hsnap : snap.lockUntil = none) :
    (runSimultaneous snap now n db).loginAttempts = db.loginAttempts + n ∧
    (snap.loginAttempts + 1 < 5 →
        (runSimultaneous snap now n db).lockUntil = db.lockUntil) := by
  induction n generalizing db with
  | zero => simp [runSimultaneous]
  | succ n ih =>
    have hstep := applyIncUpdate_unlockedSnap snap db now hsnap
    have hrec := ih (applyIncUpdate snap now db)
    constructor
    · show (runSimultaneous snap now n (applyIncUpdate snap now db)).loginAttempts
          = db.loginAttempts + (n + 1)
      rw [hrec.1, hstep.1]
      omega
    · intro h5
      show (runSimultaneous snap now n (applyIncUpdate snap now db)).lockUntil
          = db.lockUntil
      rw [hrec.2 h5, hstep.2 h5]

/-- Witness for `simultaneous_increments_exact`: two simultaneous
requests from snapshot counter 3 leave counter 5 and the lock field
untouched. -/
theorem simultaneous_increments_exact_witness :
    (runSimultaneous { loginAttempts := 3, lockUntil := none } 100 2
        { loginAttempts := 3, lockUntil := none }).loginAttempts =
      ({ loginAttempts := 3, lockUntil := none } : AcctState).loginAttempts + 2 ∧
    (runSimultaneous { loginAttempts := 3, lockUntil := none } 100 2
        { loginAttempts := 3, lockUntil := none }).lockUntil =
      ({ loginAttempts := 3, lockUntil := none } : AcctState).lockUntil :=
  ⟨(simultaneous_increments_exact { loginAttempts := 3, lockUntil := none } 100 2
      { loginAttempts := 3, lockUntil := none } rfl).1,
    (simultaneous_increments_exact { loginAttempts := 3, lockUntil := none } 100 2
      { loginAttempts := 3, lockUntil := none } rfl).2 (by decide)⟩

/-- A locked account carrying a pending reset token for the raw token
`tk`, expiring at 10000. -/
def c10Admin : Admin :=
  { demoAdmin with
    loginAttempts := 5,
    lockUntil := some 99999999,
    passwordResetToken := some (sha256hex "tk"),
    passwordResetExpires := some 10000 }

/-- C10 counterexample: a successful `completeReset` does not mutate
only the password hash and the two reset fields — the save hooks also
set `passwordChangedAt` (from `none` to `some 4000` here) and
`updatedAt`. -/
theorem completeReset_mutates_passwordChangedAt :
    (completeReset [c10Admin] "tk" "np1234" 5000).1 = .success ∧
    c10Admin.passwordChangedAt = none ∧
    ((completeReset [c10Admin] "tk" "np1234" 5000).2.map
        Admin.passwordChangedAt) = [some 4000] ∧
    c10Admin.updatedAt = 0 ∧
    ((completeReset [c10Admin] "tk" "np1234" 5000).2.map Admin.updatedAt) =
      [5000] := by
  decide

/-- C10 amended: a successful `completeReset` replaces the store's
account by the input account with exactly these fields changed: the
password (hashed new password), the cleared reset-token digest and
expiry, and the hook-maintained `updatedAt` and `passwordChangedAt`
bookkeeping timestamps; every other field — in particular
`loginAttempts` and `lockUntil` — is carried over unchanged, so an
account locked at reset time remains locked with its counter intact. -/
theorem completeReset_frame (a : Admin) (tok np : String) (now e : Nat)
    (htok : a.passwordResetToken = some (sha256hex tok))
    (hexp : a.passwordResetExpires = some e) (hfut : now < e) :
    completeReset [a] tok np now =
      (.success,
        [{ a with
            password := bcryptHash np,
            passwordResetToken := none,
            passwordResetExpires := none,
            updatedAt := now,
            passwordChangedAt := some (now - 1000) }]) ∧
    (∀ t, isLocked
        { a with
            password := bcryptHash np,
            passwordResetToken := none,
            passwordResetExpires := none,
            updatedAt := now,
            passwordChangedAt := some (now - 1000) } t = isLocked a t) := by
  refine ⟨?_, fun t => rfl⟩
  simp [completeReset, resetTokenMatches, htok, hexp, hfut, updateById,
    saveAdmin, hashPasswordHook, passwordChangedAtHook]

/-- Witness for `completeReset_frame`: the concrete locked account's
reset succeeds and the resulting stored account keeps its lock and
counter. -/
theorem completeReset_frame_witness :
    completeReset [c10Admin] "tk" "np1234" 5000 =
      (.success,
        [{ c10Admin with
            password := bcryptHash "np1234",
            passwordResetToken := none,
            passwordResetExpires := none,
            updatedAt := 5000,
            passwordChangedAt := some (5000 - 1000) }]) :=
  (completeReset_frame c10Admin "tk" "np1234" 5000 10000 rfl rfl
    (by decide)).1
